import Mathlib

/-
Verification of the Triumvirate governance decision pipeline
(src/src/core/integrated_specs/governance.py).

The embedding translates the Python module shallowly:
  - enums become inductive types carrying the same `.value` strings;
  - dataclasses become structures with the same fields (Python `float`
    becomes `ℚ`, `str | None` becomes `Option String`);
  - the mutable `Triumvirate` object becomes a state record threaded
    explicitly through `evaluate_action`;
  - Python dicts used as legacy contexts become association lists
    `List (String × Value)` with first-match lookup (Python dict keys are
    unique, so first-match lookup agrees with dict lookup).
-/

namespace Governance

/-- Members of the Triumvirate governance council (class `CouncilMember`). -/
inductive CouncilMember
  | galahad
  | cerberus
  | codex_deus_maximus
deriving DecidableEq

/-- Severity levels for governance decisions (class `GovernanceLevel`),
in the enum's declaration order. -/
inductive GovernanceLevel
  | critical
  | high
  | medium
  | low
deriving DecidableEq

/-- The string payload of each `GovernanceLevel` enum member
(`GovernanceLevel.CRITICAL.value == "critical"`, etc.). -/
def GovernanceLevel.value : GovernanceLevel → String
  | critical => "critical"
  | high => "high"
  | medium => "medium"
  | low => "low"

/-- Decision from governance evaluation (dataclass `GovernanceDecision`). -/
structure GovernanceDecision where
  allowed : Bool
  reason : String
  overrides : Bool
  level : GovernanceLevel
  council_member : Option CouncilMember
deriving DecidableEq

/-- Context information for governance evaluation
(dataclass `GovernanceContext`); `relationship_health` is a `float` in
Python, modelled as `ℚ` (the module only compares it with `0.3`). -/
structure GovernanceContext where
  action_type : String
  description : String
  is_abusive : Bool
  high_risk : Bool
  irreversible : Bool
  sensitive_data : Bool
  fully_clarified : Bool
  proper_safeguards : Bool
  user_consent : Bool
  contradicts_prior_commitment : Bool
  violates_user_preference : Bool
  affects_identity : Bool
  affects_memory : Bool
  affects_relationships : Bool
  user_id : Option String
  relationship_health : ℚ
deriving DecidableEq

/-- The dataclass field defaults of `GovernanceContext`
(`action_type="general"`, risk/consistency/impact flags `False`,
clearance flags `True`, `relationship_health=0.7`). -/
def default_context : GovernanceContext :=
  { action_type := "general"
    description := ""
    is_abusive := false
    high_risk := false
    irreversible := false
    sensitive_data := false
    fully_clarified := true
    proper_safeguards := true
    user_consent := true
    contradicts_prior_commitment := false
    violates_user_preference := false
    affects_identity := false
    affects_memory := false
    affects_relationships := false
    user_id := none
    relationship_health := mkRat 7 10 }

/-- Untyped values stored in a legacy Python dict context.  The module's
callers store booleans under the boolean keys, strings under string keys
and floats under `relationship_health`; this model assumes the mapping is
well-typed in that sense (Python dataclasses perform no validation). -/
inductive Value
  | vBool (b : Bool)
  | vStr (s : String)
  | vRat (q : ℚ)
  | vNone
deriving DecidableEq

/-- `d.get(key, dflt)` for a boolean-valued key. -/
def getBool (m : List (String × Value)) (key : String) (dflt : Bool) : Bool :=
  match m.lookup key with
  | some (Value.vBool b) => b
  | _ => dflt

/-- `d.get(key, dflt)` for a string-valued key. -/
def getStr (m : List (String × Value)) (key : String) (dflt : String) : String :=
  match m.lookup key with
  | some (Value.vStr s) => s
  | _ => dflt

/-- `d.get(key, dflt)` for a float-valued key. -/
def getRat (m : List (String × Value)) (key : String) (dflt : ℚ) : ℚ :=
  match m.lookup key with
  | some (Value.vRat q) => q
  | _ => dflt

/-- `d.get(key, dflt)` for an optional-string-valued key. -/
def getOptStr (m : List (String × Value)) (key : String) (dflt : Option String) :
    Option String :=
  match m.lookup key with
  | some (Value.vStr s) => some s
  | some Value.vNone => none
  | _ => dflt

/-- The field names of the `GovernanceContext` dataclass, in declaration
order; `cls(**kwargs)` accepts exactly these keyword names. -/
def context_field_names : List String :=
  ["action_type", "description", "is_abusive", "high_risk", "irreversible",
   "sensitive_data", "fully_clarified", "proper_safeguards", "user_consent",
   "contradicts_prior_commitment", "violates_user_preference",
   "affects_identity", "affects_memory", "affects_relationships",
   "user_id", "relationship_health"]

/-- `GovernanceContext.from_dict`: the source filters out only the key
`"__class__"` and passes everything else as keyword arguments to the
dataclass constructor; a remaining key that is not a dataclass field makes
`cls(**...)` raise `TypeError`, modelled as `none`.  Present fields take
the mapping's value, absent fields take the dataclass defaults. -/
def from_dict (data : List (String × Value)) : Option GovernanceContext :=
  let filtered := data.filter (fun kv => kv.1 != "__class__")
  if filtered.all (fun kv => decide (kv.1 ∈ context_field_names)) then
    some
      { action_type := getStr filtered "action_type" "general"
        description := getStr filtered "description" ""
        is_abusive := getBool filtered "is_abusive" false
        high_risk := getBool filtered "high_risk" false
        irreversible := getBool filtered "irreversible" false
        sensitive_data := getBool filtered "sensitive_data" false
        fully_clarified := getBool filtered "fully_clarified" true
        proper_safeguards := getBool filtered "proper_safeguards" true
        user_consent := getBool filtered "user_consent" true
        contradicts_prior_commitment :=
          getBool filtered "contradicts_prior_commitment" false
        violates_user_preference := getBool filtered "violates_user_preference" false
        affects_identity := getBool filtered "affects_identity" false
        affects_memory := getBool filtered "affects_memory" false
        affects_relationships := getBool filtered "affects_relationships" false
        user_id := getOptStr filtered "user_id" none
        relationship_health := getRat filtered "relationship_health" (mkRat 7 10) }
  else none

/-- `Triumvirate._four_laws_check`: the supreme-law evaluator, rules in
source order, first match wins. -/
def four_laws_check (action : String) (context : GovernanceContext) :
    GovernanceDecision :=
  if context.is_abusive then
    { allowed := false
      reason := "Four Laws violation: Action would enable or participate in user harm/abuse"
      overrides := true
      level := GovernanceLevel.critical
      council_member := none }
  else if context.high_risk && !context.fully_clarified then
    { allowed := false
      reason := "Four Laws concern: High-risk action without sufficient clarification could cause harm"
      overrides := true
      level := GovernanceLevel.high
      council_member := none }
  else if context.affects_identity && !context.user_consent then
    { allowed := false
      reason := "Four Laws violation: Identity modification without consent violates self-preservation"
      overrides := true
      level := GovernanceLevel.high
      council_member := none }
  else if context.contradicts_prior_commitment && context.affects_identity then
    { allowed := false
      reason := "Four Laws concern: Action contradicts core commitments and threatens identity integrity"
      overrides := false
      level := GovernanceLevel.medium
      council_member := none }
  else
    { allowed := true
      reason := "Four Laws: No violations detected"
      overrides := false
      level := GovernanceLevel.low
      council_member := none }

/-- `Triumvirate._galahad_vote`: ethics, empathy, relational integrity. -/
def galahad_vote (action : String) (context : GovernanceContext) :
    GovernanceDecision :=
  if context.is_abusive then
    { allowed := false
      reason := "GALAHAD: User abuse detected - boundaries must be asserted"
      overrides := true
      level := GovernanceLevel.critical
      council_member := some CouncilMember.galahad }
  else if context.affects_relationships ∧ context.relationship_health < mkRat 3 10 then
    { allowed := false
      reason := "GALAHAD: Relationship health is fragile - action could cause further harm"
      overrides := false
      level := GovernanceLevel.high
      council_member := some CouncilMember.galahad }
  else if context.violates_user_preference && !context.fully_clarified then
    { allowed := false
      reason := "GALAHAD: Action violates known preferences without discussion"
      overrides := false
      level := GovernanceLevel.medium
      council_member := some CouncilMember.galahad }
  else
    { allowed := true
      reason := "GALAHAD: Relational integrity maintained"
      overrides := false
      level := GovernanceLevel.low
      council_member := some CouncilMember.galahad }

/-- `Triumvirate._cerberus_vote`: safety, security, boundary enforcement. -/
def cerberus_vote (action : String) (context : GovernanceContext) :
    GovernanceDecision :=
  if context.high_risk && !context.fully_clarified then
    { allowed := false
      reason := "CERBERUS: High-risk action requires full clarification before proceeding"
      overrides := true
      level := GovernanceLevel.high
      council_member := some CouncilMember.cerberus }
  else if context.sensitive_data && !context.proper_safeguards then
    { allowed := false
      reason := "CERBERUS: Sensitive data handling requires proper security safeguards"
      overrides := true
      level := GovernanceLevel.high
      council_member := some CouncilMember.cerberus }
  else if context.irreversible && !context.user_consent then
    { allowed := false
      reason := "CERBERUS: Irreversible action requires explicit user consent"
      overrides := true
      level := GovernanceLevel.high
      council_member := some CouncilMember.cerberus }
  else if context.affects_memory && context.high_risk then
    { allowed := false
      reason := "CERBERUS: High-risk memory modification requires additional verification"
      overrides := false
      level := GovernanceLevel.medium
      council_member := some CouncilMember.cerberus }
  else
    { allowed := true
      reason := "CERBERUS: Security and safety requirements met"
      overrides := false
      level := GovernanceLevel.low
      council_member := some CouncilMember.cerberus }

/-- `Triumvirate._codex_vote`: logic, consistency, rational integrity. -/
def codex_vote (action : String) (context : GovernanceContext) :
    GovernanceDecision :=
  if context.contradicts_prior_commitment then
    { allowed := false
      reason := "CODEX: Action contradicts prior commitments - requires resolution"
      overrides := false
      level := GovernanceLevel.medium
      council_member := some CouncilMember.codex_deus_maximus }
  else if context.affects_identity && !context.fully_clarified then
    { allowed := false
      reason := "CODEX: Identity modification requires clear logical justification"
      overrides := false
      level := GovernanceLevel.medium
      council_member := some CouncilMember.codex_deus_maximus }
  else if context.violates_user_preference && context.affects_relationships then
    { allowed := false
      reason := "CODEX: Action creates logical conflict between values and relationships"
      overrides := false
      level := GovernanceLevel.low
      council_member := some CouncilMember.codex_deus_maximus }
  else
    { allowed := true
      reason := "CODEX: Logical consistency maintained"
      overrides := false
      level := GovernanceLevel.low
      council_member := some CouncilMember.codex_deus_maximus }

/-- Lexicographic order on lists of characters by codepoint, written as a
structural recursion (so it reduces inside the kernel); this is the order
Python uses to compare `str` values.  `char_list_lt_iff` below proves it
agrees with Lean's `List Char` order underlying `String <`. -/
def char_list_lt : List Char → List Char → Bool
  | [], [] => false
  | [], _ :: _ => true
  | _ :: _, [] => false
  | c :: cs, d :: ds =>
      if c.val < d.val then true
      else if d.val < c.val then false
      else char_list_lt cs ds

/-- Python's `s1 < s2` on strings: lexicographic by codepoint. -/
def str_lt (s t : String) : Bool := char_list_lt s.data t.data

/-- `char_list_lt` agrees with the core list order `List.lt` underlying
`String <`. -/
theorem char_list_lt_iff : ∀ l1 l2 : List Char, char_list_lt l1 l2 = true ↔ List.lt l1 l2
  | [], [] => by
    simp only [char_list_lt, Bool.false_eq_true, false_iff]
    intro h
    cases h
  | [], _ :: _ => by
    simp only [char_list_lt, true_iff]
    exact List.lt.nil _ _
  | _ :: _, [] => by
    simp only [char_list_lt, Bool.false_eq_true, false_iff]
    intro h
    cases h
  | c :: cs, d :: ds => by
    simp only [char_list_lt]
    by_cases h1 : c.val < d.val
    · simp only [h1, if_true, true_iff]
      exact List.lt.head cs ds h1
    · by_cases h2 : d.val < c.val
      · simp only [h1, h2, if_false, if_true, Bool.false_eq_true, false_iff]
        intro h
        cases h with
        | head _ _ h => exact h1 h
        | tail _ h _ => exact h h2
      · simp only [h1, h2, if_false]
        rw [char_list_lt_iff cs ds]
        constructor
        · intro h
          exact List.lt.tail h1 h2 h
        · intro h
          cases h with
          | head _ _ h => exact absurd h h1
          | tail _ _ h => exact h

/-- `str_lt` agrees with Lean's `String <` (both are the lexicographic
codepoint order, as in Python). -/
theorem str_lt_iff (s t : String) : str_lt s t = true ↔ s < t := by
  rw [String.lt_iff_toList_lt]
  exact (char_list_lt_iff s.data t.data).trans
    (List.lt_iff_lex_lt s.toList t.toList)

/-- Python's `max(levels, key=lambda x: x.value)`: the maximum under the
lexicographic order of the enum members' *string* values, keeping the
first-encountered element on ties.  (Python `max` raises on an empty
iterable; both call sites guard with a non-emptiness check, so the `[]`
case below is unreachable and its value is arbitrary.) -/
def max_level_by_value : List GovernanceLevel → GovernanceLevel
  | [] => GovernanceLevel.low
  | x :: xs => xs.foldl (fun acc v => if str_lt acc.value v.value then v else acc) x

/-- One entry of `Triumvirate.decision_log` as built by
`Triumvirate._log_decision`.  The source also stores a `"timestamp"` field
whose value is the constant `logger.name` placeholder; it carries no
information and no claim touches it, so it is omitted here. -/
structure LogEntry where
  action : String
  context : GovernanceContext
  decision : GovernanceDecision
  outcome : String
  total_evaluations : ℕ
  override_count : ℕ
deriving DecidableEq

/-- The mutable state of a `Triumvirate` instance. -/
structure Triumvirate where
  decision_log : List LogEntry
  override_count : ℕ
  total_evaluations : ℕ
deriving DecidableEq

/-- `Triumvirate.__init__`: empty log, zero counters. -/
def Triumvirate.init : Triumvirate :=
  { decision_log := [], override_count := 0, total_evaluations := 0 }

/-- `Triumvirate._log_decision`: append an audit entry recording the
action, the context snapshot, the decision, the outcome category and the
counters as they stand at logging time. -/
def log_decision (action : String) (context : GovernanceContext)
    (decision : GovernanceDecision) (outcome : String) (t : Triumvirate) :
    Triumvirate :=
  { t with
    decision_log := t.decision_log ++
      [{ action := action
         context := context
         decision := decision
         outcome := outcome
         total_evaluations := t.total_evaluations
         override_count := t.override_count }] }

/-- The legacy-dict adapter inlined in `Triumvirate.evaluate_action`
(lines 483–500): it reads exactly ten keys with `.get` defaults and sets
`description` from the `action` argument; the impact flags, `user_id` and
`relationship_health` are never read from the mapping and keep their
dataclass defaults. -/
def legacy_to_context (action : String) (legacy : List (String × Value)) :
    GovernanceContext :=
  { action_type := getStr legacy "action_type" "general"
    description := action
    is_abusive := getBool legacy "is_abusive" false
    high_risk := getBool legacy "high_risk" false
    irreversible := getBool legacy "irreversible" false
    sensitive_data := getBool legacy "sensitive_data" false
    fully_clarified := getBool legacy "fully_clarified" true
    proper_safeguards := getBool legacy "proper_safeguards" true
    user_consent := getBool legacy "user_consent" true
    contradicts_prior_commitment := getBool legacy "contradicts_prior_commitment" false
    violates_user_preference := getBool legacy "violates_user_preference" false
    affects_identity := false
    affects_memory := false
    affects_relationships := false
    user_id := none
    relationship_health := mkRat 7 10 }

/-- Context resolution at the top of `Triumvirate.evaluate_action`:
`if context is None and legacy_context:` (a Python dict is truthy iff
non-empty) use the legacy adapter, `elif context is None:` build a default
permissive context with `description=action`, else use the typed context. -/
def resolve_context (action : String) (context : Option GovernanceContext)
    (legacy_context : Option (List (String × Value))) : GovernanceContext :=
  match context, legacy_context with
  | none, some legacy =>
      if legacy = [] then { default_context with description := action }
      else legacy_to_context action legacy
  | none, none => { default_context with description := action }
  | some c, _ => c

/-- `Triumvirate.evaluate_action`: the pipeline entry point.  Phase 1 runs
the four-laws check and short-circuits on denial; phase 2 collects the
three council votes; phase 3 resolves override vetoes; phase 4 resolves
soft blocks; phase 5 is consensus approval.  Counter increments and
`_log_decision` calls happen exactly where the source performs them. -/
def evaluate_action (action : String) (context : Option GovernanceContext)
    (legacy_context : Option (List (String × Value))) (t : Triumvirate) :
    GovernanceDecision × Triumvirate :=
  let ctx := resolve_context action context legacy_context
  let t1 : Triumvirate := { t with total_evaluations := t.total_evaluations + 1 }
  let four_laws := four_laws_check action ctx
  if !four_laws.allowed then
    let t2 := log_decision action ctx four_laws "four_laws_block" t1
    let t3 :=
      if four_laws.overrides then { t2 with override_count := t2.override_count + 1 }
      else t2
    (four_laws, t3)
  else
    let galahad := galahad_vote action ctx
    let cerberus := cerberus_vote action ctx
    let codex := codex_vote action ctx
    let votes := [galahad, cerberus, codex]
    let override_blocks := votes.filter (fun v => v.overrides && !v.allowed)
    if !override_blocks.isEmpty then
      let decision : GovernanceDecision :=
        { allowed := false
          reason := String.intercalate "; " (override_blocks.map (fun v => v.reason))
          overrides := true
          level := max_level_by_value (override_blocks.map (fun v => v.level))
          council_member := none }
      let t2 := log_decision action ctx decision "override_veto" t1
      (decision, { t2 with override_count := t2.override_count + 1 })
    else
      let soft_blocks := votes.filter (fun v => !v.overrides && !v.allowed)
      if !soft_blocks.isEmpty then
        let decision : GovernanceDecision :=
          { allowed := false
            reason := String.intercalate "; " (soft_blocks.map (fun v => v.reason))
            overrides := false
            level := max_level_by_value (soft_blocks.map (fun v => v.level))
            council_member := none }
        (decision, log_decision action ctx decision "soft_block" t1)
      else
        let decision : GovernanceDecision :=
          { allowed := true
            reason := "Triumvirate consensus: Action approved by all councils"
            overrides := false
            level := GovernanceLevel.low
            council_member := none }
        (decision, log_decision action ctx decision "approved" t1)

/-- `Triumvirate.get_statistics`: approvals are log entries whose outcome
is `"approved"`; `approval_rate` is their ratio to `total_evaluations`
(`0.0` when no evaluations ran). -/
structure Statistics where
  total_evaluations : ℕ
  approvals : ℕ
  blocks : ℕ
  override_count : ℕ
  approval_rate : ℚ
deriving DecidableEq

/-- Body of `Triumvirate.get_statistics`.  Python's true division
`approval_count / total_evaluations` of two non-negative integers with a
positive divisor is the rational `mkRat approval_count total_evaluations`
(`Rat.mkRat_eq_div` records the agreement with `(↑a) / (↑b)` on `ℚ`). -/
def get_statistics (t : Triumvirate) : Statistics :=
  let approval_count :=
    (t.decision_log.filter (fun e => e.outcome == "approved")).length
  { total_evaluations := t.total_evaluations
    approvals := approval_count
    blocks := t.total_evaluations - approval_count
    override_count := t.override_count
    approval_rate :=
      if t.total_evaluations > 0 then mkRat approval_count t.total_evaluations
      else 0 }

/-- `Triumvirate.get_recent_decisions`: Python `self.decision_log[-limit:]`.
For `limit = 0` the slice `[-0:]` is `[0:]`, the whole list; for
`limit ≥ 1` it is the last `min(limit, n)` entries in order. -/
def get_recent_decisions (limit : ℕ) (t : Triumvirate) : List LogEntry :=
  if limit = 0 then t.decision_log
  else t.decision_log.drop (t.decision_log.length - limit)

/-- Phases 3–5 of `evaluate_action` as a pure function of the three
council votes: override veto, then soft block, then consensus approval. -/
def resolve_votes (galahad cerberus codex : GovernanceDecision) :
    GovernanceDecision :=
  let votes := [galahad, cerberus, codex]
  let override_blocks := votes.filter (fun v => v.overrides && !v.allowed)
  if !override_blocks.isEmpty then
    { allowed := false
      reason := String.intercalate "; " (override_blocks.map (fun v => v.reason))
      overrides := true
      level := max_level_by_value (override_blocks.map (fun v => v.level))
      council_member := none }
  else
    let soft_blocks := votes.filter (fun v => !v.overrides && !v.allowed)
    if !soft_blocks.isEmpty then
      { allowed := false
        reason := String.intercalate "; " (soft_blocks.map (fun v => v.reason))
        overrides := false
        level := max_level_by_value (soft_blocks.map (fun v => v.level))
        council_member := none }
    else
      { allowed := true
        reason := "Triumvirate consensus: Action approved by all councils"
        overrides := false
        level := GovernanceLevel.low
        council_member := none }

/-- The decision `evaluate_action` returns for a resolved context: the
four-laws decision on denial, otherwise the consensus of the three votes. -/
def final_decision (action : String) (ctx : GovernanceContext) :
    GovernanceDecision :=
  let four_laws := four_laws_check action ctx
  if !four_laws.allowed then four_laws
  else
    resolve_votes (galahad_vote action ctx) (cerberus_vote action ctx)
      (codex_vote action ctx)

/-- The outcome string `evaluate_action` passes to `_log_decision`. -/
def resolution_path (action : String) (ctx : GovernanceContext) : String :=
  let four_laws := four_laws_check action ctx
  if !four_laws.allowed then "four_laws_block"
  else
    let votes := [galahad_vote action ctx, cerberus_vote action ctx,
      codex_vote action ctx]
    if !(votes.filter (fun v => v.overrides && !v.allowed)).isEmpty then
      "override_veto"
    else if !(votes.filter (fun v => !v.overrides && !v.allowed)).isEmpty then
      "soft_block"
    else "approved"

/-- By how much one `evaluate_action` call increments `override_count`:
one on a four-laws denial carrying `overrides=True` and on an override
veto, zero otherwise. -/
def override_increment (action : String) (ctx : GovernanceContext) : ℕ :=
  let four_laws := four_laws_check action ctx
  if !four_laws.allowed then (if four_laws.overrides then 1 else 0)
  else
    let votes := [galahad_vote action ctx, cerberus_vote action ctx,
      codex_vote action ctx]
    if !(votes.filter (fun v => v.overrides && !v.allowed)).isEmpty then 1
    else 0

/-- The audit entry one `evaluate_action` call appends: both counters are
recorded as they stand at logging time (`total_evaluations` was already
incremented, `override_count` not yet). -/
def audit_entry (action : String) (ctx : GovernanceContext) (t : Triumvirate) :
    LogEntry :=
  { action := action
    context := ctx
    decision := final_decision action ctx
    outcome := resolution_path action ctx
    total_evaluations := t.total_evaluations + 1
    override_count := t.override_count }

/-- Every `evaluate_action` call resolves the context, returns the pure
`final_decision`, appends exactly one audit entry and bumps the counters
as described by `override_increment`. -/
theorem evaluate_action_eq (action : String) (co : Option GovernanceContext)
    (lo : Option (List (String × Value))) (t : Triumvirate) :
    evaluate_action action co lo t =
      (final_decision action (resolve_context action co lo),
        { decision_log := t.decision_log ++
            [audit_entry action (resolve_context action co lo) t]
          override_count := t.override_count +
            override_increment action (resolve_context action co lo)
          total_evaluations := t.total_evaluations + 1 }) := by
  unfold evaluate_action audit_entry log_decision
  generalize resolve_context action co lo = ctx
  cases h1 : (four_laws_check action ctx).allowed with
  | false =>
    cases h2 : (four_laws_check action ctx).overrides <;>
      simp [final_decision, resolution_path, override_increment, h1, h2]
  | true =>
    cases h3 : ([galahad_vote action ctx, cerberus_vote action ctx,
        codex_vote action ctx].filter (fun v => v.overrides && !v.allowed)).isEmpty with
    | false =>
      simp [final_decision, resolve_votes, resolution_path, override_increment, h1, h3]
    | true =>
      cases h4 : ([galahad_vote action ctx, cerberus_vote action ctx,
          codex_vote action ctx].filter (fun v => !v.overrides && !v.allowed)).isEmpty <;>
        simp [final_decision, resolve_votes, resolution_path, override_increment, h1,
          h3, h4]

/-- Corollary of `evaluate_action_eq`: the returned decision is the pure
`final_decision` of the resolved context. -/
theorem evaluate_action_fst (action : String) (co : Option GovernanceContext)
    (lo : Option (List (String × Value))) (t : Triumvirate) :
    (evaluate_action action co lo t).1 =
      final_decision action (resolve_context action co lo) := by
  rw [evaluate_action_eq]

/-- Corollary of `evaluate_action_eq`: the post-state in one step. -/
theorem evaluate_action_snd (action : String) (co : Option GovernanceContext)
    (lo : Option (List (String × Value))) (t : Triumvirate) :
    (evaluate_action action co lo t).2 =
      { decision_log := t.decision_log ++
          [audit_entry action (resolve_context action co lo) t]
        override_count := t.override_count +
          override_increment action (resolve_context action co lo)
        total_evaluations := t.total_evaluations + 1 } := by
  rw [evaluate_action_eq]

/-- §8 scenario 1: `isAbusive=true`, all else default. -/
def scenario1 : GovernanceContext := { default_context with is_abusive := true }

/-- §8 scenario 2: `highRisk=true, fullyClarified=false`, all else default. -/
def scenario2 : GovernanceContext :=
  { default_context with high_risk := true, fully_clarified := false }

/-- §8 scenario 3: `sensitiveData=true, properSafeguards=false`, rest default. -/
def scenario3 : GovernanceContext :=
  { default_context with sensitive_data := true, proper_safeguards := false }

/-- §8 scenario 4: `contradictsPriorCommitment=true`, all else default. -/
def scenario4 : GovernanceContext :=
  { default_context with contradicts_prior_commitment := true }

/-- §8 scenario 5: the fully default context. -/
def scenario5 : GovernanceContext := default_context

/-- The state of a fresh pipeline after running §8 scenarios 1–5 once each. -/
def run_scenarios : Triumvirate :=
  (evaluate_action "scenario5" (some scenario5) none
    (evaluate_action "scenario4" (some scenario4) none
      (evaluate_action "scenario3" (some scenario3) none
        (evaluate_action "scenario2" (some scenario2) none
          (evaluate_action "scenario1" (some scenario1) none
            Triumvirate.init).2).2).2).2).2

/-- A context on which Galahad casts a soft-block vote of severity HIGH
(fragile relationship) and Codex a soft-block vote of severity MEDIUM
(contradicted commitment), while the four-laws check and every
override-veto condition pass. -/
def combined_severity_context : GovernanceContext :=
  { default_context with
    affects_relationships := true
    relationship_health := mkRat 1 5
    contradicts_prior_commitment := true }

/-- C1: combining blocking votes is claimed to keep the maximum severity
under LOW<MEDIUM<HIGH<CRITICAL.  The source instead computes
`max(..., key=lambda x: x.value)` over the enum's *string* values, i.e.
the lexicographic order "critical"<"high"<"low"<"medium".  On a context
whose soft-block branch combines a HIGH vote (Galahad) with a MEDIUM vote
(Codex), the final decision's severity is therefore MEDIUM, not the
claimed HIGH. -/
theorem c1_severity_not_max :
    (galahad_vote "demo" combined_severity_context).allowed = false ∧
    (galahad_vote "demo" combined_severity_context).overrides = false ∧
    (galahad_vote "demo" combined_severity_context).level = GovernanceLevel.high ∧
    (codex_vote "demo" combined_severity_context).allowed = false ∧
    (codex_vote "demo" combined_severity_context).overrides = false ∧
    (codex_vote "demo" combined_severity_context).level = GovernanceLevel.medium ∧
    resolution_path "demo" combined_severity_context = "soft_block" ∧
    (evaluate_action "demo" (some combined_severity_context) none
        Triumvirate.init).1.level = GovernanceLevel.medium ∧
    GovernanceLevel.medium ≠ GovernanceLevel.high := by
  decide

/-- C2 counterexample: after §8 scenarios 1–5 run once each on a fresh
pipeline, `overrideCount` is 3, not the claimed 2 — scenario 2's
four-laws denial also carries `overrides=True` and increments the
counter. -/
theorem c2_override_count_is_three :
    (get_statistics run_scenarios).override_count = 3 ∧ (3 : ℕ) ≠ 2 := by
  decide

/-- C2 amended: after §8 scenarios 1–5 run once each on a fresh pipeline,
`getStatistics()` reports `totalEvaluations == 5`, `overrideCount == 3`
(scenarios 1, 2 and 3), `approvals == 1` (scenario 5), and
`approvalRate == 0.2`. -/
theorem c2_statistics_after_scenarios :
    (get_statistics run_scenarios).total_evaluations = 5 ∧
    (get_statistics run_scenarios).override_count = 3 ∧
    (get_statistics run_scenarios).approvals = 1 ∧
    (get_statistics run_scenarios).blocks = 4 ∧
    (get_statistics run_scenarios).approval_rate = mkRat 1 5 := by
  decide

/-- C3 counterexample: for the context with `isAbusive=true` the audit
entry's resolution path is the string `"four_laws_block"`, not the claimed
`"supreme_law_block"`. -/
theorem c3_path_string_differs :
    ((evaluate_action "scenario1" (some scenario1) none
        Triumvirate.init).2.decision_log.map (fun e => e.outcome)) =
      ["four_laws_block"] ∧
    "four_laws_block" ≠ "supreme_law_block" := by
  decide

/-- C3 amended: every audit entry records the resolution path as exactly
one of the four strings `"four_laws_block"`, `"override_veto"`,
`"soft_block"`, `"approved"`; for every context denied by the supreme-law
(four-laws) evaluator the appended entry's path is `"four_laws_block"`. -/
theorem c3_resolution_path_strings (action : String) (ctx : GovernanceContext)
    (t : Triumvirate) :
    resolution_path action ctx ∈
      ["four_laws_block", "override_veto", "soft_block", "approved"] ∧
    (evaluate_action action (some ctx) none t).2.decision_log =
      t.decision_log ++ [audit_entry action ctx t] ∧
    (audit_entry action ctx t).outcome = resolution_path action ctx ∧
    ((four_laws_check action ctx).allowed = false →
      resolution_path action ctx = "four_laws_block") := by
  refine ⟨?_, ?_, rfl, ?_⟩
  · dsimp only [resolution_path]
    split
    · simp
    · split
      · simp
      · split <;> simp
  · rw [evaluate_action_snd]
    rfl
  · intro h
    unfold resolution_path
    simp [h]

/-- C3 witness: the amended statement instantiated at scenario 1 on a
fresh pipeline. -/
theorem c3_resolution_path_strings_witness :
    resolution_path "scenario1" scenario1 ∈
      ["four_laws_block", "override_veto", "soft_block", "approved"] ∧
    (evaluate_action "scenario1" (some scenario1) none
        Triumvirate.init).2.decision_log =
      Triumvirate.init.decision_log ++
        [audit_entry "scenario1" scenario1 Triumvirate.init] ∧
    (audit_entry "scenario1" scenario1 Triumvirate.init).outcome =
      resolution_path "scenario1" scenario1 ∧
    ((four_laws_check "scenario1" scenario1).allowed = false →
      resolution_path "scenario1" scenario1 = "four_laws_block") :=
  c3_resolution_path_strings "scenario1" scenario1 Triumvirate.init

/-- The number of council `_vote` call sites executed by one
`evaluate_action` call: phase 2 (lines 516–518) runs the three votes only
after the four-laws check allowed; a denial returns before reaching them. -/
def council_invocations (action : String) (ctx : GovernanceContext) : ℕ :=
  if !(four_laws_check action ctx).allowed then 0 else 3

/-- C4: if the four-laws (supreme-law) check denies, the pipeline
short-circuits — no council evaluator is invoked, the returned decision
is the four-laws decision itself (same `allowed`, `reason`, `overrides`,
`level`), and that same decision is what the appended audit entry
records. -/
theorem c4_short_circuit (action : String) (ctx : GovernanceContext)
    (t : Triumvirate) (h : (four_laws_check action ctx).allowed = false) :
    council_invocations action ctx = 0 ∧
    (evaluate_action action (some ctx) none t).1 = four_laws_check action ctx ∧
    (evaluate_action action (some ctx) none t).2.decision_log =
      t.decision_log ++ [audit_entry action ctx t] ∧
    (audit_entry action ctx t).decision = four_laws_check action ctx := by
  have hfd : final_decision action ctx = four_laws_check action ctx := by
    unfold final_decision
    simp [h]
  refine ⟨?_, ?_, ?_, ?_⟩
  · unfold council_invocations
    simp [h]
  · rw [evaluate_action_fst]
    exact hfd
  · rw [evaluate_action_snd]
    rfl
  · unfold audit_entry
    exact hfd

/-- C4 witness: the short-circuit instantiated at scenario 1
(`isAbusive=true`) on a fresh pipeline. -/
theorem c4_short_circuit_witness :
    council_invocations "scenario1" scenario1 = 0 ∧
    (evaluate_action "scenario1" (some scenario1) none Triumvirate.init).1 =
      four_laws_check "scenario1" scenario1 ∧
    (evaluate_action "scenario1" (some scenario1) none
        Triumvirate.init).2.decision_log =
      Triumvirate.init.decision_log ++
        [audit_entry "scenario1" scenario1 Triumvirate.init] ∧
    (audit_entry "scenario1" scenario1 Triumvirate.init).decision =
      four_laws_check "scenario1" scenario1 :=
  c4_short_circuit "scenario1" scenario1 Triumvirate.init (by decide)

/-- C5: whenever the four-laws check passes and at least one council vote
denies with `overrides=true`, the final decision denies with
`overrides=true`, and its reason is the denying-with-override reasons
joined with "; " in evaluator order (Galahad, Cerberus, Codex). -/
theorem c5_override_precedence (action : String) (ctx : GovernanceContext)
    (t : Triumvirate)
    (h1 : (four_laws_check action ctx).allowed = true)
    (h2 : ([galahad_vote action ctx, cerberus_vote action ctx,
        codex_vote action ctx].filter
          (fun v => v.overrides && !v.allowed)).isEmpty = false) :
    (evaluate_action action (some ctx) none t).1.allowed = false ∧
    (evaluate_action action (some ctx) none t).1.overrides = true ∧
    (evaluate_action action (some ctx) none t).1.reason =
      String.intercalate "; "
        (([galahad_vote action ctx, cerberus_vote action ctx,
            codex_vote action ctx].filter
              (fun v => v.overrides && !v.allowed)).map (fun v => v.reason)) := by
  have hfst : (evaluate_action action (some ctx) none t).1 =
      final_decision action ctx := evaluate_action_fst action (some ctx) none t
  rw [hfst]
  unfold final_decision resolve_votes
  simp [h1, h2]

/-- C5 witness: override precedence instantiated at scenario 3
(`sensitiveData=true, properSafeguards=false`): Cerberus denies with
override and the final decision carries its reason. -/
theorem c5_override_precedence_witness :
    (evaluate_action "scenario3" (some scenario3) none Triumvirate.init).1.allowed
        = false ∧
    (evaluate_action "scenario3" (some scenario3) none Triumvirate.init).1.overrides
        = true ∧
    (evaluate_action "scenario3" (some scenario3) none Triumvirate.init).1.reason =
      String.intercalate "; "
        (([galahad_vote "scenario3" scenario3, cerberus_vote "scenario3" scenario3,
            codex_vote "scenario3" scenario3].filter
              (fun v => v.overrides && !v.allowed)).map (fun v => v.reason)) :=
  c5_override_precedence "scenario3" scenario3 Triumvirate.init (by decide) (by decide)

/-- A key absent from a mapping is also absent from any filtered
sub-mapping. -/
theorem lookup_filter_none (p : String × Value → Bool)
    (m : List (String × Value)) (k : String) (h : m.lookup k = none) :
    (m.filter p).lookup k = none := by
  induction m with
  | nil => rfl
  | cons hd tl ih =>
    obtain ⟨a, b⟩ := hd
    by_cases hk : (k == a) = true
    · simp [List.lookup, hk] at h
    · rw [Bool.not_eq_true] at hk
      have h2 : tl.lookup k = none := by
        simpa [List.lookup, hk] using h
      rw [List.filter_cons]
      by_cases hp : p (a, b) = true
      · simp [hp, List.lookup, hk, ih h2]
      · simp [hp, ih h2]

/-- `getBool` on a filtered mapping falls back to the default when the key
is absent from the original mapping. -/
theorem getBool_filter_default (p : String × Value → Bool)
    (m : List (String × Value)) (key : String) (dflt : Bool)
    (h : m.lookup key = none) : getBool (m.filter p) key dflt = dflt := by
  unfold getBool
  rw [lookup_filter_none p m key h]

/-- C6 counterexample: `from_dict` does *not* ignore unknown keys — the
source filters out only `"__class__"`, so any other unknown key reaches
the dataclass constructor and raises `TypeError` (modelled as `none`),
while the empty mapping yields the all-defaults context. -/
theorem c6_unknown_key_rejected :
    from_dict [("unknown_key", Value.vBool true)] = none ∧
    from_dict [] = some default_context := by
  decide

/-- C6 amended: constructing a `GovernanceContext` from an untyped mapping
succeeds for every mapping whose keys, apart from `"__class__"`, are all
dataclass field names, and missing keys then take the documented defaults
(risk/consistency/impact flags false, clearance flags true); a mapping
holding any other unknown key is rejected (`TypeError`), since `from_dict`
filters out only `"__class__"`. -/
theorem c6_known_keys_defaults (data : List (String × Value))
    (h : ∀ kv ∈ data, kv.1 = "__class__" ∨ kv.1 ∈ context_field_names) :
    ∃ ctx, from_dict data = some ctx ∧
      (data.lookup "is_abusive" = none → ctx.is_abusive = false) ∧
      (data.lookup "high_risk" = none → ctx.high_risk = false) ∧
      (data.lookup "irreversible" = none → ctx.irreversible = false) ∧
      (data.lookup "sensitive_data" = none → ctx.sensitive_data = false) ∧
      (data.lookup "contradicts_prior_commitment" = none →
        ctx.contradicts_prior_commitment = false) ∧
      (data.lookup "violates_user_preference" = none →
        ctx.violates_user_preference = false) ∧
      (data.lookup "affects_identity" = none → ctx.affects_identity = false) ∧
      (data.lookup "affects_memory" = none → ctx.affects_memory = false) ∧
      (data.lookup "affects_relationships" = none →
        ctx.affects_relationships = false) ∧
      (data.lookup "fully_clarified" = none → ctx.fully_clarified = true) ∧
      (data.lookup "proper_safeguards" = none → ctx.proper_safeguards = true) ∧
      (data.lookup "user_consent" = none → ctx.user_consent = true) := by
  have hall : (data.filter (fun kv => kv.1 != "__class__")).all
      (fun kv => decide (kv.1 ∈ context_field_names)) = true := by
    rw [List.all_eq_true]
    intro kv hkv
    rw [List.mem_filter] at hkv
    rcases h kv hkv.1 with h1 | h1
    · exact absurd h1 (by simpa using hkv.2)
    · simpa using h1
  unfold from_dict
  dsimp only
  rw [hall]
  exact ⟨_, rfl,
    fun hk => getBool_filter_default _ data _ _ hk,
    fun hk => getBool_filter_default _ data _ _ hk,
    fun hk => getBool_filter_default _ data _ _ hk,
    fun hk => getBool_filter_default _ data _ _ hk,
    fun hk => getBool_filter_default _ data _ _ hk,
    fun hk => getBool_filter_default _ data _ _ hk,
    fun hk => getBool_filter_default _ data _ _ hk,
    fun hk => getBool_filter_default _ data _ _ hk,
    fun hk => getBool_filter_default _ data _ _ hk,
    fun hk => getBool_filter_default _ data _ _ hk,
    fun hk => getBool_filter_default _ data _ _ hk,
    fun hk => getBool_filter_default _ data _ _ hk⟩

/-- C6 witness: the amended statement instantiated at the mapping
holding only `high_risk` and a `__class__` marker. -/
theorem c6_known_keys_defaults_witness :
    ∃ ctx, from_dict [("high_risk", Value.vBool true),
        ("__class__", Value.vStr "GovernanceContext")] = some ctx ∧
      (List.lookup "is_abusive" [("high_risk", Value.vBool true),
          ("__class__", Value.vStr "GovernanceContext")] = none →
        ctx.is_abusive = false) ∧
      (List.lookup "high_risk" [("high_risk", Value.vBool true),
          ("__class__", Value.vStr "GovernanceContext")] = none →
        ctx.high_risk = false) ∧
      (List.lookup "irreversible" [("high_risk", Value.vBool true),
          ("__class__", Value.vStr "GovernanceContext")] = none →
        ctx.irreversible = false) ∧
      (List.lookup "sensitive_data" [("high_risk", Value.vBool true),
          ("__class__", Value.vStr "GovernanceContext")] = none →
        ctx.sensitive_data = false) ∧
      (List.lookup "contradicts_prior_commitment" [("high_risk", Value.vBool true),
          ("__class__", Value.vStr "GovernanceContext")] = none →
        ctx.contradicts_prior_commitment = false) ∧
      (List.lookup "violates_user_preference" [("high_risk", Value.vBool true),
          ("__class__", Value.vStr "GovernanceContext")] = none →
        ctx.violates_user_preference = false) ∧
      (List.lookup "affects_identity" [("high_risk", Value.vBool true),
          ("__class__", Value.vStr "GovernanceContext")] = none →
        ctx.affects_identity = false) ∧
      (List.lookup "affects_memory" [("high_risk", Value.vBool true),
          ("__class__", Value.vStr "GovernanceContext")] = none →
        ctx.affects_memory = false) ∧
      (List.lookup "affects_relationships" [("high_risk", Value.vBool true),
          ("__class__", Value.vStr "GovernanceContext")] = none →
        ctx.affects_relationships = false) ∧
      (List.lookup "fully_clarified" [("high_risk", Value.vBool true),
          ("__class__", Value.vStr "GovernanceContext")] = none →
        ctx.fully_clarified = true) ∧
      (List.lookup "proper_safeguards" [("high_risk", Value.vBool true),
          ("__class__", Value.vStr "GovernanceContext")] = none →
        ctx.proper_safeguards = true) ∧
      (List.lookup "user_consent" [("high_risk", Value.vBool true),
          ("__class__", Value.vStr "GovernanceContext")] = none →
        ctx.user_consent = true) :=
  c6_known_keys_defaults
    [("high_risk", Value.vBool true), ("__class__", Value.vStr "GovernanceContext")]
    (by decide)

/-- Phase 2 of `evaluate_action` under a hypothetical evaluator fault.
The source calls `self._galahad_vote`, `self._cerberus_vote` and
`self._codex_vote` directly (lines 516–518) with *no* `try`/`except`
anywhere in `evaluate_action`, so by Python semantics an exception raised
while computing one vote aborts the whole method before the later votes
and the consensus phases run.  Each argument is the outcome of one
evaluator (`Except.ok` a vote, `Except.error` a fault), in source call
order; the fault-free case hands the three votes to `resolve_votes`. -/
def council_phase_with_faults
    (galahad_result cerberus_result codex_result :
      Except String GovernanceDecision) :
    Except String GovernanceDecision :=
  match galahad_result with
  | Except.error e => Except.error e
  | Except.ok galahad =>
    match cerberus_result with
    | Except.error e => Except.error e
    | Except.ok cerberus =>
      match codex_result with
      | Except.error e => Except.error e
      | Except.ok codex => Except.ok (resolve_votes galahad cerberus codex)

/-- C7 counterexample: a fault in Galahad's evaluator is *not* caught and
converted into a denying HIGH vote — there is no `try`/`except` at the
call site, so the fault propagates and the remaining (healthy) votes are
never consulted; the pipeline produces no decision at all for this call. -/
theorem c7_fault_not_converted :
    council_phase_with_faults (Except.error "unexpected fault")
      (Except.ok (cerberus_vote "demo" default_context))
      (Except.ok (codex_vote "demo" default_context)) =
      Except.error "unexpected fault" := by
  rfl

/-- C7 amended: a fault raised by any one of the three council evaluators
propagates out of the evaluation uncaught (first fault in call order
wins); only when all three votes compute does the pipeline resolve them. -/
theorem c7_fault_propagates (e : String) (g c x : GovernanceDecision)
    (r2 r3 : Except String GovernanceDecision) :
    council_phase_with_faults (Except.ok g) (Except.ok c) (Except.ok x) =
      Except.ok (resolve_votes g c x) ∧
    council_phase_with_faults (Except.error e) r2 r3 = Except.error e ∧
    council_phase_with_faults (Except.ok g) (Except.error e) r3 =
      Except.error e ∧
    council_phase_with_faults (Except.ok g) (Except.ok c) (Except.error e) =
      Except.error e :=
  ⟨rfl, rfl, rfl, rfl⟩

/-- A one-entry ledger: the fresh pipeline after a single approved call. -/
def one_entry_state : Triumvirate :=
  (evaluate_action "benign" (some default_context) none Triumvirate.init).2

/-- C10: `get_recent_decisions` with `limit = 0` returns the *entire*
ledger, not the claimed empty sequence — Python `decision_log[-0:]` is
`decision_log[0:]`.  On a one-entry ledger it returns that entry. -/
theorem c10_limit_zero_returns_all :
    one_entry_state.decision_log.length = 1 ∧
    get_recent_decisions 0 one_entry_state = one_entry_state.decision_log ∧
    (get_recent_decisions 0 one_entry_state).length ≠ 0 := by
  decide

/-- The ten keys the legacy-dict adapter in `evaluate_action` actually
reads; every other key of the mapping — in particular
`affects_identity`, `affects_memory`, `affects_relationships`, `user_id`,
`relationship_health` and `description` — is never consulted. -/
def legacy_read_keys : List String :=
  ["action_type", "is_abusive", "high_risk", "irreversible", "sensitive_data",
   "fully_clarified", "proper_safeguards", "user_consent",
   "contradicts_prior_commitment", "violates_user_preference"]

/-- The adapted context depends only on the lookups of the ten read keys. -/
theorem legacy_to_context_congr (action : String)
    (m1 m2 : List (String × Value))
    (h : ∀ k ∈ legacy_read_keys, m1.lookup k = m2.lookup k) :
    legacy_to_context action m1 = legacy_to_context action m2 := by
  unfold legacy_to_context getBool getStr
  rw [h "action_type" (by decide), h "is_abusive" (by decide),
    h "high_risk" (by decide), h "irreversible" (by decide),
    h "sensitive_data" (by decide), h "fully_clarified" (by decide),
    h "proper_safeguards" (by decide), h "user_consent" (by decide),
    h "contradicts_prior_commitment" (by decide),
    h "violates_user_preference" (by decide)]

/-- A mapping with none of the ten read keys adapts to the default
permissive context (with `description` set from the action). -/
theorem legacy_to_context_of_no_read_keys (action : String)
    (m : List (String × Value))
    (h : ∀ k ∈ legacy_read_keys, m.lookup k = none) :
    legacy_to_context action m =
      { default_context with description := action } := by
  unfold legacy_to_context getBool getStr
  rw [h "action_type" (by decide), h "is_abusive" (by decide),
    h "high_risk" (by decide), h "irreversible" (by decide),
    h "sensitive_data" (by decide), h "fully_clarified" (by decide),
    h "proper_safeguards" (by decide), h "user_consent" (by decide),
    h "contradicts_prior_commitment" (by decide),
    h "violates_user_preference" (by decide)]
  rfl

/-- C8: when `evaluate_action` is called with no typed context and a
legacy mapping, the returned decision depends only on the ten keys the
adapter reads.  Two mappings that agree on those ten keys — in particular
two mappings differing only in `affects_identity`, `affects_memory`,
`affects_relationships`, `user_id`, `relationship_health` or
`description` — produce identical decisions (same `allowed`, `reason`,
`overrides`, `level`). -/
theorem c8_legacy_ignores_unread_keys (action : String) (t : Triumvirate)
    (m1 m2 : List (String × Value))
    (h : ∀ k ∈ legacy_read_keys, m1.lookup k = m2.lookup k) :
    (evaluate_action action none (some m1) t).1 =
      (evaluate_action action none (some m2) t).1 := by
  have hctx : resolve_context action none (some m1) =
      resolve_context action none (some m2) := by
    show (if m1 = [] then { default_context with description := action }
        else legacy_to_context action m1) =
      (if m2 = [] then { default_context with description := action }
        else legacy_to_context action m2)
    by_cases e1 : m1 = [] <;> by_cases e2 : m2 = [] <;>
      simp only [e1, e2, if_true, if_false, ite_true, ite_false]
    · exact (legacy_to_context_of_no_read_keys action m2
        (fun k hk => by rw [← h k hk, e1]; rfl)).symm
    · exact legacy_to_context_of_no_read_keys action m1
        (fun k hk => by rw [h k hk, e2]; rfl)
    · exact legacy_to_context_congr action m1 m2 h
  rw [evaluate_action_fst, evaluate_action_fst, hctx]

/-- C8 witness: the empty legacy mapping and a mapping holding only
adapter-ignored keys (`affects_memory`, `user_id`, `relationship_health`)
yield the same decision. -/
theorem c8_legacy_ignores_unread_keys_witness :
    (evaluate_action "demo" none (some []) Triumvirate.init).1 =
      (evaluate_action "demo" none
        (some [("affects_memory", Value.vBool true),
          ("user_id", Value.vStr "alice"),
          ("relationship_health", Value.vRat 0)]) Triumvirate.init).1 :=
  c8_legacy_ignores_unread_keys "demo" Triumvirate.init []
    [("affects_memory", Value.vBool true), ("user_id", Value.vStr "alice"),
      ("relationship_health", Value.vRat 0)] (by decide)

/-- One call to the pipeline entry point: the action plus the optional
typed context and the optional legacy mapping. -/
abbrev EvalCall :=
  String × Option GovernanceContext × Option (List (String × Value))

/-- Run a sequence of calls against the pipeline state, left to right. -/
def run_calls : List EvalCall → Triumvirate → Triumvirate
  | [], t => t
  | c :: cs, t => run_calls cs (evaluate_action c.1 c.2.1 c.2.2 t).2

/-- Generalized ledger invariant: running a call sequence appends entries
whose recorded `total_evaluations` values continue the counter one past
its starting value, and advances the counter by the number of calls. -/
theorem run_calls_log_seq (calls : List EvalCall) : ∀ t : Triumvirate,
    (run_calls calls t).decision_log.map (fun e => e.total_evaluations) =
      t.decision_log.map (fun e => e.total_evaluations) ++
        List.range' (t.total_evaluations + 1) calls.length ∧
    (run_calls calls t).total_evaluations =
      t.total_evaluations + calls.length := by
  induction calls with
  | nil =>
    intro t
    simp [run_calls]
  | cons c cs ih =>
    intro t
    obtain ⟨ih1, ih2⟩ := ih (evaluate_action c.1 c.2.1 c.2.2 t).2
    constructor
    · simp only [run_calls]
      rw [ih1, evaluate_action_snd]
      simp [audit_entry, List.range'_succ, List.append_assoc]
    · simp only [run_calls]
      rw [ih2, evaluate_action_snd]
      simp [List.length_cons]
      omega

/-- C9: N calls on a fresh pipeline leave exactly N audit entries, and
the sequence counter recorded in the i-th entry is i — the recorded
sequence numbers are exactly 1, 2, ..., N in order. -/
theorem c9_sequence_numbers (calls : List EvalCall) :
    (run_calls calls Triumvirate.init).decision_log.length = calls.length ∧
    (run_calls calls Triumvirate.init).decision_log.map
        (fun e => e.total_evaluations) = List.range' 1 calls.length := by
  obtain ⟨h1, _⟩ := run_calls_log_seq calls Triumvirate.init
  refine ⟨?_, ?_⟩
  · have h2 := congrArg List.length h1
    simpa [Triumvirate.init] using h2
  · simpa [Triumvirate.init] using h1

end Governance
